import Mathlib

set_option autoImplicit false

namespace SnakeServer

/-! ## Grid primitives

Shallow embedding of the engine package (directions, points, locations,
toroidal navigation) and of the playground spatial registry, used by the
world layer in `src/game/world.go` and the entities. -/

/-- Modelled from the spec: a grid point `(x, y)`; the source stores
coordinates as `uint8`, modelled as `Nat` (all arithmetic below reduces
modulo the playground width/height where the source wraps). -/
structure Dot where
  x : Nat
  y : Nat
deriving DecidableEq, Repr

/-- Modelled from the spec: a location is an ordered sequence of distinct
points owned by one object. -/
abbrev Location := List Dot

/-- Modelled from the spec: direction values are machine integers in the
engine package (missing from src/); `0..3` encode N, E, S, W. -/
def DirectionNorth : Nat := 0

def DirectionEast : Nat := 1

def DirectionSouth : Nat := 2

def DirectionWest : Nat := 3

/-- Modelled from the spec: `ValidDirection` holds exactly for the four
direction constants. -/
def ValidDirection (dir : Nat) : Bool := dir ≤ 3

/-- Modelled from the spec: `Reverse(N)=S`, `Reverse(E)=W` and vice versa;
an invalid direction value has no reverse (the engine returns an error). -/
def reverseDirection (dir : Nat) : Option Nat :=
  if dir = DirectionNorth then some DirectionSouth
  else if dir = DirectionSouth then some DirectionNorth
  else if dir = DirectionEast then some DirectionWest
  else if dir = DirectionWest then some DirectionEast
  else none

/-- Modelled from the spec: `CalculateDirection(from, to)` for axis-aligned
neighbors; the snake source consumes a single return value, so non-neighbor
inputs (never produced by a well-formed snake) map to the North constant. -/
def CalculateDirection (f t : Dot) : Nat :=
  if t.x = f.x + 1 then DirectionEast
  else if f.x = t.x + 1 then DirectionWest
  else if t.y = f.y + 1 then DirectionSouth
  else if f.y = t.y + 1 then DirectionNorth
  else DirectionNorth

/-- Modelled from the spec: toroidal navigation,
`Navigate(p, dir, dist) = ((p.x + dx*dist) mod W, (p.y + dy*dist) mod H)`;
fails only on an invalid direction value. -/
def Navigate (w h : Nat) (p : Dot) (dir dist : Nat) : Option Dot :=
  if dir = DirectionNorth then some ⟨p.x, (p.y + h - dist % h) % h⟩
  else if dir = DirectionSouth then some ⟨p.x, (p.y + dist) % h⟩
  else if dir = DirectionEast then some ⟨(p.x + dist) % w, p.y⟩
  else if dir = DirectionWest then some ⟨(p.x + w - dist % w) % w, p.y⟩
  else none

/-- Location membership test (`Location.Contains`). -/
def containsDot : Location → Dot → Bool
  | [], _ => false
  | p :: rest, d => if p = d then true else containsDot rest d

/-- Location point removal (`Location.Delete`). -/
def deleteDot : Location → Dot → Location
  | [], _ => []
  | p :: rest, d => if p = d then deleteDot rest d else p :: deleteDot rest d

/-- Modelled from the spec: the playground registry `OBJ ↔ LOC` (the
playground package is not under src/); objects are identified by a
numeric id. -/
structure Playground where
  width : Nat
  height : Nat
  entities : List (Nat × Location)
deriving DecidableEq, Repr

/-- A point lies inside the playground bounds. -/
def dotInBounds (pg : Playground) (d : Dot) : Bool :=
  decide (d.x < pg.width) && decide (d.y < pg.height)

/-- Modelled from the spec: `GetObjectByDot(p)` returns the object whose
registered location contains `p`, else none. -/
def GetObjectByDot (pg : Playground) (d : Dot) : Option Nat :=
  (pg.entities.find? fun e => containsDot e.2 d).map (fun e => e.1)

/-- A point is occupied by some object other than `selfId`. -/
def dotOccupiedByOther (pg : Playground) (selfId : Nat) (d : Dot) : Bool :=
  pg.entities.any fun e => if e.1 = selfId then false else containsDot e.2 d

/-- Modelled from the spec: `EntityExists(o, loc)` holds iff `(o, loc)` is
exactly the registered pair. -/
def EntityExists (pg : Playground) (o : Nat) (loc : Location) : Bool :=
  pg.entities.any fun e => decide (e.1 = o ∧ e.2 = loc)

/-- Playground error values (the concrete Go error structs carry no data
the claims depend on). -/
inductive PgErr where
  | locationOccupied
  | outOfBounds
  | notRegistered
  | noAvailableDots
  | noFreeSpace
deriving DecidableEq, Repr

/-- Modelled from the spec: `CreateObject(o, loc)` registers iff all points
are in bounds and none is occupied by another object. -/
def pgCreateObject (pg : Playground) (o : Nat) (loc : Location) :
    Except PgErr Playground :=
  if !loc.all (dotInBounds pg) then .error .outOfBounds
  else if loc.any (fun d => (GetObjectByDot pg d).isSome) then .error .locationOccupied
  else .ok { pg with entities := pg.entities ++ [(o, loc)] }

/-- Modelled from the spec: `DeleteObject(o, loc)` removes the registration;
`EntityExists(o, loc)` is required. -/
def pgDeleteObject (pg : Playground) (o : Nat) (loc : Location) :
    Except PgErr Playground :=
  if EntityExists pg o loc then
    .ok { pg with entities := pg.entities.filter fun e => !decide (e.1 = o ∧ e.2 = loc) }
  else .error .notRegistered

/-- Modelled from the spec: `UpdateObject(o, old, new)` atomically replaces
the registration; occupancy is checked ignoring `o`'s own old cells. -/
def pgUpdateObject (pg : Playground) (o : Nat) (old new : Location) :
    Except PgErr Playground :=
  if !EntityExists pg o old then .error .notRegistered
  else if !new.all (dotInBounds pg) then .error .outOfBounds
  else if new.any (fun d => dotOccupiedByOther pg o d) then .error .locationOccupied
  else .ok { pg with entities := pg.entities.map fun e => if e.1 = o then (o, new) else e }

/-- Modelled from the spec: `CreateObjectAvailableDots(o, loc)` registers the
subset of `loc` whose points are free and in bounds; an empty subset fails. -/
def pgCreateObjectAvailableDots (pg : Playground) (o : Nat) (loc : Location) :
    Except PgErr (Location × Playground) :=
  let kept := loc.filter fun d => dotInBounds pg d && (GetObjectByDot pg d).isNone
  if kept.isEmpty then .error .noAvailableDots
  else .ok (kept, { pg with entities := pg.entities ++ [(o, kept)] })

/-- Modelled from the spec: `UpdateObjectAvailableDots(o, old, new)` keeps
every new cell that is in `old` or currently free; an empty kept subset
fails. -/
def pgUpdateObjectAvailableDots (pg : Playground) (o : Nat) (old new : Location) :
    Except PgErr (Location × Playground) :=
  if !EntityExists pg o old then .error .notRegistered
  else
    let kept := new.filter fun d =>
      dotInBounds pg d && (containsDot old d || !dotOccupiedByOther pg o d)
    if kept.isEmpty then .error .noAvailableDots
    else .ok (kept, { pg with entities := pg.entities.map fun e => if e.1 = o then (o, kept) else e })

/-- All dots of the playground grid, row-major. -/
def allDots (pg : Playground) : List Dot :=
  (List.range pg.height).flatMap fun y => (List.range pg.width).map fun x => ⟨x, y⟩

/-- Modelled from the spec: `CreateObjectRandomDot(o)` registers a one-cell
location at a random free cell; the random draw is embedded as the `pick`
index into the free-cell list. -/
def pgCreateObjectRandomDot (pg : Playground) (o : Nat) (pick : Nat) :
    Except PgErr (Location × Playground) :=
  let free := (allDots pg).filter fun d => (GetObjectByDot pg d).isNone
  if free.isEmpty then .error .noFreeSpace
  else
    let d := free.getD (pick % free.length) ⟨0, 0⟩
    .ok ([d], { pg with entities := pg.entities ++ [(o, [d])] })

/-- Row-major cell list of a `rw × rh` rectangle anchored at `(x, y)`. -/
def rectDots (x y rw rh : Nat) : Location :=
  (List.range rh).flatMap fun j => (List.range rw).map fun i => ⟨x + i, y + j⟩

/-- Modelled from the spec: `CreateObjectRandomRect(o, rw, rh)` registers a
uniformly chosen free, contiguous, non-wrapping rectangle placement; the
random draw is embedded as the `pick` index. -/
def pgCreateObjectRandomRect (pg : Playground) (o : Nat) (rw rh pick : Nat) :
    Except PgErr (Location × Playground) :=
  let anchors := (List.range pg.height).flatMap fun y =>
    (List.range pg.width).map fun x => (x, y)
  let placements := anchors.filter fun a =>
    decide (a.1 + rw ≤ pg.width) && decide (a.2 + rh ≤ pg.height) &&
      (rectDots a.1 a.2 rw rh).all fun d => (GetObjectByDot pg d).isNone
  if placements.isEmpty then .error .noFreeSpace
  else
    let a := placements.getD (pick % placements.length) (0, 0)
    let loc := rectDots a.1 a.2 rw rh
    .ok (loc, { pg with entities := pg.entities ++ [(o, loc)] })

/-! ## World layer (src/game/world.go)

The world wraps the playground and publishes one event per call path.
Each world operation below returns the call result, the new playground,
and the list of publish attempts (`w.event` calls) it makes. -/

/-- Event types of `src/game/world.go`. -/
inductive EventType where
  | objectCreate
  | objectDelete
  | objectUpdate
  | objectChecked
  | error
deriving DecidableEq, Repr

/-- Event payload: a live object reference (by id) or an error value. -/
inductive EventPayload where
  | obj (id : Nat)
  | err (e : PgErr)
deriving DecidableEq, Repr

/-- An event `(type, payload)` as published by the world. -/
structure Event where
  type : EventType
  payload : EventPayload
deriving DecidableEq, Repr

/-- Embeds `world.CreateObject` (world.go 244-257): on playground failure
publish one Error event and return the error, else publish one
ObjectCreate event. -/
def worldCreateObject (pg : Playground) (o : Nat) (loc : Location) :
    Except PgErr Unit × Playground × List Event :=
  match pgCreateObject pg o loc with
  | .error e => (.error e, pg, [⟨.error, .err e⟩])
  | .ok pg2 => (.ok (), pg2, [⟨.objectCreate, .obj o⟩])

/-- Embeds `world.CreateObjectAvailableDots` (world.go 259-273). -/
def worldCreateObjectAvailableDots (pg : Playground) (o : Nat) (loc : Location) :
    Except PgErr Location × Playground × List Event :=
  match pgCreateObjectAvailableDots pg o loc with
  | .error e => (.error e, pg, [⟨.error, .err e⟩])
  | .ok (kept, pg2) => (.ok kept, pg2, [⟨.objectCreate, .obj o⟩])

/-- Embeds `world.DeleteObject` (world.go 275-289). -/
def worldDeleteObject (pg : Playground) (o : Nat) (loc : Location) :
    Except PgErr Unit × Playground × List Event :=
  match pgDeleteObject pg o loc with
  | .error e => (.error e, pg, [⟨.error, .err e⟩])
  | .ok pg2 => (.ok (), pg2, [⟨.objectDelete, .obj o⟩])

/-- Embeds `world.UpdateObject` (world.go 291-304). -/
def worldUpdateObject (pg : Playground) (o : Nat) (old new : Location) :
    Except PgErr Unit × Playground × List Event :=
  match pgUpdateObject pg o old new with
  | .error e => (.error e, pg, [⟨.error, .err e⟩])
  | .ok pg2 => (.ok (), pg2, [⟨.objectUpdate, .obj o⟩])

/-- Embeds `world.UpdateObjectAvailableDots` (world.go 306-320). -/
def worldUpdateObjectAvailableDots (pg : Playground) (o : Nat) (old new : Location) :
    Except PgErr Location × Playground × List Event :=
  match pgUpdateObjectAvailableDots pg o old new with
  | .error e => (.error e, pg, [⟨.error, .err e⟩])
  | .ok (kept, pg2) => (.ok kept, pg2, [⟨.objectUpdate, .obj o⟩])

/-- Embeds `world.CreateObjectRandomDot` (world.go 322-336). -/
def worldCreateObjectRandomDot (pg : Playground) (o : Nat) (pick : Nat) :
    Except PgErr Location × Playground × List Event :=
  match pgCreateObjectRandomDot pg o pick with
  | .error e => (.error e, pg, [⟨.error, .err e⟩])
  | .ok (loc, pg2) => (.ok loc, pg2, [⟨.objectCreate, .obj o⟩])

/-- Embeds `world.CreateObjectRandomRect` (world.go 338-352). -/
def worldCreateObjectRandomRect (pg : Playground) (o : Nat) (rw rh pick : Nat) :
    Except PgErr Location × Playground × List Event :=
  match pgCreateObjectRandomRect pg o rw rh pick with
  | .error e => (.error e, pg, [⟨.error, .err e⟩])
  | .ok (loc, pg2) => (.ok loc, pg2, [⟨.objectCreate, .obj o⟩])

/-- Embeds `world.GetObjectByDot` (world.go 209-218): a found object
publishes one ObjectChecked event. -/
def worldGetObjectByDot (pg : Playground) (d : Dot) :
    Option Nat × List Event :=
  match GetObjectByDot pg d with
  | some o => (some o, [⟨.objectChecked, .obj o⟩])
  | none => (none, [])

/-! ## World channel machinery (start, event, sendEvent) -/

/-- Buffer capacity of the main event queue (world.go line 12). -/
def worldEventsChanMainBufferSize : Nat := 512

/-- Buffer capacity of a subscriber output queue (world.go line 14). -/
def worldEventsChanOutBufferSize : Nat := 32

/-- The pump-relevant world state: the `flagStarted` field and the number
of pump goroutines ever launched. -/
structure WorldLifecycle where
  flagStarted : Bool
  pumpCount : Nat
deriving DecidableEq, Repr

/-- A freshly constructed world (`newWorld`, world.go 49-57):
`flagStarted` is false and no pump goroutine is running. -/
def newWorldLifecycle : WorldLifecycle :=
  { flagStarted := false, pumpCount := 0 }

/-- Embeds `world.start` (world.go 66-82) verbatim: it returns early when
`!flagStarted` holds; otherwise it sets the flag and launches one pump
goroutine (counted in `pumpCount`). -/
def startWorld (w : WorldLifecycle) : WorldLifecycle :=
  if !w.flagStarted then w
  else { flagStarted := true, pumpCount := w.pumpCount + 1 }

/-- Possible outcomes of one publish attempt on the main queue. -/
inductive SendOutcome where
  | enqueued
  | dropped
  | blocked
deriving DecidableEq, Repr

/-- Embeds the select statement of `world.event` (world.go 59-64): send on
the main queue versus receive from `stopGlobal`, with no default branch.
The result lists the outcomes the Go select can take immediately: when a
single case is ready it is taken, when both are ready Go picks either, and
when neither is ready (`blocked`) the call does not return yet. -/
def eventSendOutcomes (qLen : Nat) (stopped : Bool) : List SendOutcome :=
  if qLen < worldEventsChanMainBufferSize then
    if stopped then [.enqueued, .dropped] else [.enqueued]
  else
    if stopped then [.dropped] else [.blocked]

/-- Embeds the buffered-channel loop of `world.sendEvent` (world.go
151-168) in the regime where neither stop channel is closed and the send
timeout has not elapsed: a queue with room receives the event at the back;
a queue at capacity first loses its front (oldest) element through the
default branch's receive, after which the send succeeds. -/
def sendEventBuffered (qcap : Nat) (q : List Event) (e : Event) : List Event :=
  if q.length < qcap then q ++ [e]
  else q.tail ++ [e]

/-- One fan-out delivery into the subscriber queue at index `i`; only that
subscriber's queue is passed to `sendEventBuffered`. -/
def deliverEventAt (subs : List (List Event)) (i : Nat) (qcap : Nat) (e : Event) :
    List (List Event) :=
  subs.set i (sendEventBuffered qcap (subs.getD i []) e)

/-! ## Snake (src/objects/snake/snake.go) -/

/-- The mutable snake fields: id, cell list (head first), virtual length,
and current direction (as the engine's machine-integer encoding). -/
structure SnakeSt where
  id : Nat
  dots : List Dot
  length : Nat
  direction : Nat
deriving DecidableEq, Repr

/-- Embeds the `snakeCommands` map (snake.go 35-40) keyed by the command
strings "n", "e", "s", "w". -/
def snakeCommandsMap (cmd : String) : Option Nat :=
  if cmd = "n" then some DirectionNorth
  else if cmd = "e" then some DirectionEast
  else if cmd = "s" then some DirectionSouth
  else if cmd = "w" then some DirectionWest
  else none

/-- Embeds `Snake.setMovementDirection` (snake.go 258-276). The source
indexes `s.dots[1]` and `s.dots[0]` without a bounds check inside the
valid-direction branch; `none` models the runtime index-out-of-range fault
of that access, every non-faulting path is `some`. -/
def setMovementDirection (s : SnakeSt) (nextDir : Nat) :
    Option (Except String SnakeSt) :=
  if ValidDirection nextDir then
    match s.dots.get? 1, s.dots.get? 0 with
    | some d1, some d0 =>
      let currDir := CalculateDirection d1 d0
      match reverseDirection nextDir with
      | none => some (.error "cannot set movement direction")
      | some rNextDir =>
        if rNextDir = currDir then
          some (.error "next direction cannot be opposite to current direction")
        else
          some (.ok { s with direction := nextDir })
    | _, _ => none
  else some (.error "invalid direction")

/-- Embeds `Snake.Command` (snake.go 249-256): a recognized command calls
`setMovementDirection` and discards its error, returning nil (`.ok` with
the resulting snake state); an unrecognized command returns an error.
`none` propagates a fault from `setMovementDirection`. -/
def commandSnake (s : SnakeSt) (cmd : String) :
    Option (Except String SnakeSt) :=
  match snakeCommandsMap cmd with
  | some dir =>
    match setMovementDirection s dir with
    | none => none
    | some (.ok s2) => some (.ok s2)
    | some (.error _) => some (.ok s)
  | none => some (.error "cannot execute command")

/-- Embeds one tick of `Snake.move` (snake.go 185-227) together with
`Snake.getNextHeadDot` (238-247) and `Snake.Die` (137-142): compute the
next head dot, die on any object at that dot, otherwise prepend the head,
drop the tail when the virtual length is exceeded, and commit through
`world.UpdateObject`. Returns the move result, the playground after the
tick, and the events published by the world calls made. -/
def moveSnake (pg : Playground) (s : SnakeSt) :
    Except String SnakeSt × Playground × List Event :=
  match s.dots with
  | [] => (.error "cannot get next head dots: errEmptyDotList", pg, [])
  | headDot :: _ =>
    match Navigate pg.width pg.height headDot s.direction 1 with
    | none => (.error "invalid direction", pg, [])
    | some nextDot =>
      match worldGetObjectByDot pg nextDot with
      | (some _, checkedEvents) =>
        let (_, pg2, delEvents) := worldDeleteObject pg s.id s.dots
        (.error "die collusion", pg2, checkedEvents ++ delEvents)
      | (none, _) =>
        let tmpDots := nextDot :: s.dots
        let newDots := if s.length < tmpDots.length then tmpDots.dropLast else tmpDots
        match worldUpdateObject pg s.id s.dots newDots with
        | (.error _, pg2, evs) => (.error "update snake error", pg2, evs)
        | (.ok _, pg2, evs) => (.ok { s with dots := newDots }, pg2, evs)

/-! ## Corpse (src/unnamed/part_002) -/

/-- The mutable corpse fields; `stopClosed` records whether the `stop`
channel that cancels the TTL timer has been closed. -/
structure CorpseSt where
  id : Nat
  location : Location
  nippedPiece : Option Dot
  stopClosed : Bool
deriving DecidableEq, Repr

/-- Embeds `Corpse.NutritionalValue` (part_002 lines 39-56) verbatim,
including its guard `len(c.location) > 0`, which tests the location from
before the deletion. Returns the nutritional value, the corpse state, the
playground, and the events published. -/
def nutritionalValue (pg : Playground) (c : CorpseSt) (d : Dot) :
    Int × CorpseSt × Playground × List Event :=
  if containsDot c.location d then
    let newDots := deleteDot c.location d
    if 0 < c.location.length then
      let (_, pg2, evs) := worldUpdateObjectAvailableDots pg c.id c.location newDots
      (2, { c with location := newDots, nippedPiece := some d }, pg2, evs)
    else
      let (_, pg2, evs) := worldDeleteObject pg c.id c.location
      (2, { c with stopClosed := true }, pg2, evs)
  else (0, c, pg, [])

/-! ## Game WebSocket handler (src/handlers/game_websocket_handler.go) -/

/-- Outcome of the group-manager lookup `Get(id)`. Modelled from the spec:
the connections group manager is not under src/; `Get` returns the group
or `ErrNotFoundGroup`, and the handler routes any other error to 500. -/
inductive GroupLookup where
  | found (isFull : Bool)
  | notFoundGroup
  | otherErr
deriving DecidableEq, Repr

/-- HTTP responses the handler can produce before or instead of handling
the connection. -/
inductive HttpOutcome where
  | badRequest
  | notFound
  | internalErr
  | serviceUnavailable
  | upgradedAndHandled
deriving DecidableEq, Repr

/-- Decimal value of a digit list. -/
def digitsVal (ds : List Char) : Nat :=
  ds.foldl (fun n c => n * 10 + (c.toNat - '0'.toNat)) 0

/-- Embeds `strconv.Atoi` on the route variable: an optional sign followed
by at least one digit parses to an integer, anything else fails; a value
outside the 64-bit `int` range `[-2^63, 2^63 - 1]` fails with a range
error. -/
def atoi (s : String) : Option Int :=
  let signAndDigits : Int × List Char :=
    match s.data with
    | '+' :: rest => (1, rest)
    | '-' :: rest => (-1, rest)
    | l => (1, l)
  if signAndDigits.2.isEmpty then none
  else if signAndDigits.2.all Char.isDigit then
    let v : Int := signAndDigits.1 * (digitsVal signAndDigits.2 : Int)
    if v < -(2 ^ 63) ∨ 2 ^ 63 - 1 < v then none else some v
  else none

/-- Embeds `gameWebSocketHandler.ServeHTTP` (game_websocket_handler.go
42-90): 400 when the id does not parse, 404 on `ErrNotFoundGroup`, 500 on
any other lookup error, 503 when the group is full, and only otherwise is
the connection upgraded and handed to the worker. -/
def serveGameWebSocket (idStr : String) (lookupGroup : Int → GroupLookup) :
    HttpOutcome :=
  match atoi idStr with
  | none => .badRequest
  | some id =>
    match lookupGroup id with
    | .notFoundGroup => .notFound
    | .otherErr => .internalErr
    | .found true => .serviceUnavailable
    | .found false => .upgradedAndHandled

/-! ## Concrete fixtures used by the claims -/

/-- The spawn rectangle of scenario S1 in row-major order. -/
def rectS1 : List Dot := [⟨5, 5⟩, ⟨6, 5⟩, ⟨7, 5⟩]

/-- The S1 snake cell list as the claim states it: head first with the
head at `(5,5)`. -/
def snakeClaimC4 : SnakeSt :=
  { id := 1, dots := rectS1, length := 3, direction := DirectionEast }

/-- The 10x10 playground holding only the C4 claim snake. -/
def pgClaimC4 : Playground :=
  { width := 10, height := 10, entities := [(1, rectS1)] }

/-- The S1 snake cell list as `NewSnake` actually builds it: the spawn
rect reversed for direction E, head `(7,5)` first. -/
def snakeAmendedC4 : SnakeSt :=
  { id := 1, dots := rectS1.reverse, length := 3, direction := DirectionEast }

/-- The 10x10 playground holding only the amended C4 snake. -/
def pgAmendedC4 : Playground :=
  { width := 10, height := 10, entities := [(1, rectS1.reverse)] }

/-- A snake moving east: head `(7,5)`, second cell `(6,5)`. -/
def snakeEastward : SnakeSt :=
  { id := 4, dots := [⟨7, 5⟩, ⟨6, 5⟩, ⟨5, 5⟩], length := 3, direction := DirectionEast }

/-- A snake moving north: head `(4,4)`, second cell `(4,5)`. -/
def snakeNorthward : SnakeSt :=
  { id := 5, dots := [⟨4, 4⟩, ⟨4, 5⟩], length := 3, direction := DirectionNorth }

/-- A single-dot corpse at `(3,3)`. -/
def corpseSingleDot : CorpseSt :=
  { id := 2, location := [⟨3, 3⟩], nippedPiece := none, stopClosed := false }

/-- The 10x10 playground holding only the single-dot corpse. -/
def pgCorpse : Playground :=
  { width := 10, height := 10, entities := [(2, [⟨3, 3⟩])] }

/-- A snake with a single cell, as used by the bounds-check claim. -/
def snakeOneDot : SnakeSt :=
  { id := 6, dots := [⟨0, 0⟩], length := 3, direction := DirectionNorth }

/-- Sample events for the subscriber-queue fixtures. -/
def evCreate1 : Event := ⟨.objectCreate, .obj 1⟩

def evUpdate1 : Event := ⟨.objectUpdate, .obj 1⟩

def evDelete1 : Event := ⟨.objectDelete, .obj 1⟩

/-! ## Theorems -/

/-- C1: the claim says the first call to `World.start()` launches the event
pump (once and only once). The code refutes it: `start` tests `!flagStarted`
on a freshly constructed world whose flag is false, so every call — the
first included, and all later ones, since the flag is never set — returns
without launching a pump goroutine. -/
theorem startWorldNeverLaunchesPump :
    startWorld newWorldLifecycle = newWorldLifecycle ∧
    ∀ n : Nat, startWorld^[n] newWorldLifecycle = newWorldLifecycle := by
  refine ⟨rfl, ?_⟩
  intro n
  induction n with
  | zero => rfl
  | succ k ih =>
    rw [Function.iterate_succ_apply]
    exact ih

/-- C2: every mutating world operation publishes exactly one event per
call: the matching ObjectCreate/ObjectDelete/ObjectUpdate event when the
playground mutation succeeds and exactly one Error event when it fails —
never both. -/
theorem worldMutatorsPublishExactlyOneEvent :
    (∀ pg o loc, (worldCreateObject pg o loc).2.2 =
      [match (worldCreateObject pg o loc).1 with
       | .ok _ => ⟨.objectCreate, .obj o⟩
       | .error e => ⟨.error, .err e⟩]) ∧
    (∀ pg o loc, (worldCreateObjectAvailableDots pg o loc).2.2 =
      [match (worldCreateObjectAvailableDots pg o loc).1 with
       | .ok _ => ⟨.objectCreate, .obj o⟩
       | .error e => ⟨.error, .err e⟩]) ∧
    (∀ pg o loc, (worldDeleteObject pg o loc).2.2 =
      [match (worldDeleteObject pg o loc).1 with
       | .ok _ => ⟨.objectDelete, .obj o⟩
       | .error e => ⟨.error, .err e⟩]) ∧
    (∀ pg o old new, (worldUpdateObject pg o old new).2.2 =
      [match (worldUpdateObject pg o old new).1 with
       | .ok _ => ⟨.objectUpdate, .obj o⟩
       | .error e => ⟨.error, .err e⟩]) ∧
    (∀ pg o old new, (worldUpdateObjectAvailableDots pg o old new).2.2 =
      [match (worldUpdateObjectAvailableDots pg o old new).1 with
       | .ok _ => ⟨.objectUpdate, .obj o⟩
       | .error e => ⟨.error, .err e⟩]) ∧
    (∀ pg o pick, (worldCreateObjectRandomDot pg o pick).2.2 =
      [match (worldCreateObjectRandomDot pg o pick).1 with
       | .ok _ => ⟨.objectCreate, .obj o⟩
       | .error e => ⟨.error, .err e⟩]) ∧
    (∀ pg o rw rh pick, (worldCreateObjectRandomRect pg o rw rh pick).2.2 =
      [match (worldCreateObjectRandomRect pg o rw rh pick).1 with
       | .ok _ => ⟨.objectCreate, .obj o⟩
       | .error e => ⟨.error, .err e⟩]) := by
  refine ⟨?_, ?_, ?_, ?_, ?_, ?_, ?_⟩
  · intro pg o loc
    cases h : pgCreateObject pg o loc <;> simp [worldCreateObject, h]
  · intro pg o loc
    cases h : pgCreateObjectAvailableDots pg o loc <;> simp [worldCreateObjectAvailableDots, h]
  · intro pg o loc
    cases h : pgDeleteObject pg o loc <;> simp [worldDeleteObject, h]
  · intro pg o old new
    cases h : pgUpdateObject pg o old new <;> simp [worldUpdateObject, h]
  · intro pg o old new
    cases h : pgUpdateObjectAvailableDots pg o old new <;> simp [worldUpdateObjectAvailableDots, h]
  · intro pg o pick
    cases h : pgCreateObjectRandomDot pg o pick <;> simp [worldCreateObjectRandomDot, h]
  · intro pg o rw rh pick
    cases h : pgCreateObjectRandomRect pg o rw rh pick <;> simp [worldCreateObjectRandomRect, h]

/-- C3 counterexample: a publish attempted while the main queue holds 512
events and the world is not stopped is not dropped — the select has no
default branch, so its only possible behaviour is to block. -/
theorem eventFullQueueIsNotDropped :
    SendOutcome.dropped ∉ eventSendOutcomes worldEventsChanMainBufferSize false ∧
    eventSendOutcomes worldEventsChanMainBufferSize false = [SendOutcome.blocked] := by
  decide

/-- C3 (amended): a publish attempted while the main event queue is full
and the world is not stopped blocks the mutator until queue space or world
stop — the event is not dropped; an event is dropped by this select only
when the world is stopped. -/
theorem eventSendBlocksWhenMainQueueFull :
    (∀ qLen : Nat, worldEventsChanMainBufferSize ≤ qLen →
      eventSendOutcomes qLen false = [SendOutcome.blocked]) ∧
    (∀ (qLen : Nat) (stopped : Bool),
      SendOutcome.dropped ∈ eventSendOutcomes qLen stopped ↔ stopped = true) := by
  constructor
  · intro qLen h
    have hq : ¬ qLen < worldEventsChanMainBufferSize := by omega
    simp [eventSendOutcomes, hq]
  · intro qLen stopped
    by_cases hq : qLen < worldEventsChanMainBufferSize <;>
      cases stopped <;> simp [eventSendOutcomes, hq]

/-- C3 witness for the amended theorem. -/
theorem eventSendBlocksWhenMainQueueFull_witness :
    eventSendOutcomes 512 false = [SendOutcome.blocked] ∧
    (SendOutcome.dropped ∈ eventSendOutcomes 512 true ↔ true = true) :=
  ⟨eventSendBlocksWhenMainQueueFull.1 512 (by decide),
   eventSendBlocksWhenMainQueueFull.2 512 true⟩

/-- C4 counterexample: with the cells exactly as the claim states them —
head `(5,5)` first and direction E — the next head dot `(6,5)` is occupied
by the snake itself, so the tick kills the snake (one ObjectChecked and one
ObjectDelete event) instead of committing the claimed update. -/
theorem moveSnakeClaimInputDies :
    moveSnake pgClaimC4 snakeClaimC4 =
      (Except.error "die collusion",
        { width := 10, height := 10, entities := [] },
        [⟨EventType.objectChecked, EventPayload.obj 1⟩,
         ⟨EventType.objectDelete, EventPayload.obj 1⟩]) ∧
    (moveSnake pgClaimC4 snakeClaimC4).1 ≠
      Except.ok { snakeClaimC4 with dots := [⟨8, 5⟩, ⟨7, 5⟩, ⟨6, 5⟩] } := by
  refine ⟨rfl, fun h => ?_⟩
  rw [show (moveSnake pgClaimC4 snakeClaimC4).1 = Except.error "die collusion" from rfl] at h
  exact Except.noConfusion h

/-- C4 (amended): with the head-first cell list as `NewSnake` actually
builds it for direction E — the spawn rect `[(5,5),(6,5),(7,5)]` reversed,
head `(7,5)` — one tick of the move step produces cells
`[(8,5),(7,5),(6,5)]` with length still 3, committed through exactly one
successful `UpdateObject` publishing exactly one ObjectUpdate event. -/
theorem moveSnakeS1Tick :
    moveSnake pgAmendedC4 snakeAmendedC4 =
      (Except.ok { snakeAmendedC4 with dots := [⟨8, 5⟩, ⟨7, 5⟩, ⟨6, 5⟩] },
        { width := 10, height := 10, entities := [(1, [⟨8, 5⟩, ⟨7, 5⟩, ⟨6, 5⟩])] },
        [⟨EventType.objectUpdate, EventPayload.obj 1⟩]) := rfl

/-- A valid direction value always has a reverse. -/
theorem reverseDirection_of_valid (dir : Nat) (h : ValidDirection dir = true) :
    ∃ r, reverseDirection dir = some r := by
  have h4 : dir ≤ 3 := by simpa [ValidDirection] using h
  interval_cases dir <;> exact ⟨_, rfl⟩

/-- On a snake with at least two cells, `setMovementDirection` never
faults. -/
theorem setMovementDirection_isSome (s : SnakeSt) (dir : Nat)
    (h : 2 ≤ s.dots.length) : (setMovementDirection s dir).isSome = true := by
  obtain ⟨id, dots, len, sdir⟩ := s
  match dots, h with
  | d0 :: d1 :: rest, _ =>
    by_cases hv : ValidDirection dir = true
    · obtain ⟨r, hr⟩ := reverseDirection_of_valid dir hv
      by_cases hrc : r = CalculateDirection d1 d0 <;>
        simp [setMovementDirection, hv, hr, hrc]
    · simp [setMovementDirection, hv]

/-- C5: for every snake with at least two cells, a direction command is
accepted — the stored direction becomes `dir` — exactly when `dir` is a
valid direction and its reverse differs from the current direction
`CalculateDirection(cells[1], cells[0])`; in particular a snake moving E
that receives `Command("w")` keeps direction E. -/
theorem snakeDirectionCommandNoReverse :
    (∀ (s : SnakeSt) (dir : Nat), 2 ≤ s.dots.length →
      (setMovementDirection s dir = some (Except.ok { s with direction := dir }) ↔
        (ValidDirection dir = true ∧
          reverseDirection dir ≠
            some (CalculateDirection (s.dots.getD 1 ⟨0, 0⟩) (s.dots.getD 0 ⟨0, 0⟩))))) ∧
    commandSnake snakeEastward "w" = some (Except.ok snakeEastward) := by
  constructor
  · rintro ⟨id, dots, len, sdir⟩ dir h
    match dots, h with
    | d0 :: d1 :: rest, _ =>
      by_cases hv : ValidDirection dir = true
      · obtain ⟨r, hr⟩ := reverseDirection_of_valid dir hv
        by_cases hrc : r = CalculateDirection d1 d0 <;>
          simp [setMovementDirection, hv, hr, hrc]
      · simp [setMovementDirection, hv]
  · rfl

/-- C5 witness: a perpendicular command on the eastward snake is accepted
and changes the stored direction. -/
theorem snakeDirectionCommandNoReverse_witness :
    setMovementDirection snakeEastward DirectionNorth =
      some (Except.ok { snakeEastward with direction := DirectionNorth }) :=
  (snakeDirectionCommandNoReverse.1 snakeEastward DirectionNorth (by decide)).2
    (by decide)

/-- C6: evaluating `NutritionalValue` at the failing input — a corpse whose
location is the single dot `(3,3)` eaten at exactly that dot. The claim
(and the spec) say the corpse then deletes itself from the world and
cancels its TTL timer; the code instead takes the update branch, because
its guard tests the length of the location from before the deletion, which
is always positive once `Contains` succeeded: the corpse stays registered
on the playground, the stop channel is never closed, and the world is
asked to update the corpse to an empty location, which fails with an Error
event. -/
theorem corpseLastDotDoesNotSelfDelete :
    nutritionalValue pgCorpse corpseSingleDot ⟨3, 3⟩ =
      (2, { id := 2, location := [], nippedPiece := some ⟨3, 3⟩, stopClosed := false },
        pgCorpse, [⟨EventType.error, EventPayload.err PgErr.noAvailableDots⟩]) ∧
    EntityExists pgCorpse 2 [⟨3, 3⟩] = true := by
  exact ⟨rfl, rfl⟩

/-- C7: delivering an event to a subscriber output queue at capacity drops
the oldest queued event and enqueues the newest at the back, preserving
the queue length; a fan-out delivery into one subscriber leaves every
other subscriber queue unchanged. -/
theorem sendEventDropsOldestWhenFull :
    (∀ (q : List Event) (e : Event) (qcap : Nat), q.length = qcap → 0 < qcap →
      sendEventBuffered qcap q e = q.tail ++ [e] ∧
        (sendEventBuffered qcap q e).length = qcap ∧
        (sendEventBuffered qcap q e).getLast? = some e) ∧
    (∀ (subs : List (List Event)) (i j : Nat) (qcap : Nat) (e : Event), j ≠ i →
      (deliverEventAt subs i qcap e)[j]? = subs[j]?) := by
  constructor
  · intro q e qcap h1 h2
    have hq : ¬ q.length < qcap := by omega
    refine ⟨by simp [sendEventBuffered, hq], ?_, ?_⟩
    · cases q with
      | nil => simp at h1; omega
      | cons a t =>
        rw [show sendEventBuffered qcap (a :: t) e = t ++ [e] from by
          simp only [sendEventBuffered, if_neg hq]
          rfl]
        simp at h1 ⊢
        omega
    · simp [sendEventBuffered, hq]
  · intro subs i j qcap e hij
    simp only [deliverEventAt]
    exact List.getElem?_set_ne (Ne.symm hij)

/-- C7 witness: a two-slot queue at capacity loses its oldest event and
gains the newest. -/
theorem sendEventDropsOldestWhenFull_witness :
    sendEventBuffered 2 [evCreate1, evUpdate1] evDelete1 = [evUpdate1, evDelete1] :=
  ((sendEventDropsOldestWhenFull.1 [evCreate1, evUpdate1] evDelete1 2 rfl
    (by decide)).1).trans rfl

/-- C8: the game WebSocket endpoint answers 400 when the id does not parse
as an integer, 404 when the lookup reports no group with that id, 503 when
the group is at its connection capacity, and only otherwise is the
connection upgraded and handled. -/
theorem gameWebSocketStatusCodes :
    (∀ (s : String) (g : Int → GroupLookup), atoi s = none →
      serveGameWebSocket s g = HttpOutcome.badRequest) ∧
    (∀ (s : String) (g : Int → GroupLookup) (id : Int), atoi s = some id →
      g id = GroupLookup.notFoundGroup →
        serveGameWebSocket s g = HttpOutcome.notFound) ∧
    (∀ (s : String) (g : Int → GroupLookup) (id : Int), atoi s = some id →
      g id = GroupLookup.found true →
        serveGameWebSocket s g = HttpOutcome.serviceUnavailable) ∧
    (∀ (s : String) (g : Int → GroupLookup) (id : Int), atoi s = some id →
      g id = GroupLookup.found false →
        serveGameWebSocket s g = HttpOutcome.upgradedAndHandled) ∧
    (∀ (s : String) (g : Int → GroupLookup),
      serveGameWebSocket s g = HttpOutcome.upgradedAndHandled →
        ∃ id, atoi s = some id ∧ g id = GroupLookup.found false) := by
  refine ⟨?_, ?_, ?_, ?_, ?_⟩
  · intro s g h
    simp [serveGameWebSocket, h]
  · intro s g id h1 h2
    simp [serveGameWebSocket, h1, h2]
  · intro s g id h1 h2
    simp [serveGameWebSocket, h1, h2]
  · intro s g id h1 h2
    simp [serveGameWebSocket, h1, h2]
  · intro s g h
    cases ha : atoi s with
    | none => simp [serveGameWebSocket, ha] at h
    | some id =>
      cases hg : g id with
      | found isFull =>
        cases isFull
        · exact ⟨id, rfl, hg⟩
        · simp [serveGameWebSocket, ha, hg] at h
      | notFoundGroup => simp [serveGameWebSocket, ha, hg] at h
      | otherErr => simp [serveGameWebSocket, ha, hg] at h

/-- C8 witness: each status at a concrete request, including an id beyond
the 64-bit int range, which `strconv.Atoi` rejects. -/
theorem gameWebSocketStatusCodes_witness :
    serveGameWebSocket "abc" (fun _ => GroupLookup.found false) =
      HttpOutcome.badRequest ∧
    serveGameWebSocket "9223372036854775808" (fun _ => GroupLookup.found false) =
      HttpOutcome.badRequest ∧
    serveGameWebSocket "7" (fun _ => GroupLookup.notFoundGroup) =
      HttpOutcome.notFound ∧
    serveGameWebSocket "7" (fun _ => GroupLookup.found true) =
      HttpOutcome.serviceUnavailable ∧
    serveGameWebSocket "7" (fun _ => GroupLookup.found false) =
      HttpOutcome.upgradedAndHandled :=
  ⟨gameWebSocketStatusCodes.1 "abc" _ (by decide),
   gameWebSocketStatusCodes.1 "9223372036854775808" _ (by decide),
   gameWebSocketStatusCodes.2.1 "7" _ 7 (by decide) rfl,
   gameWebSocketStatusCodes.2.2.1 "7" _ 7 (by decide) rfl,
   gameWebSocketStatusCodes.2.2.2.1 "7" _ 7 (by decide) rfl⟩

/-- C9: every recognized command "n", "e", "s", "w" makes `Command` return
nil even when the direction change is rejected by the no-180°-turn rule —
the error from `setMovementDirection` is discarded; only an unrecognized
command string yields an error. In particular the northward snake given
the opposite command "s" gets a nil result and an unchanged state. -/
theorem commandDiscardsDirectionRejection :
    (∀ (s : SnakeSt) (cmd : String), 2 ≤ s.dots.length →
      snakeCommandsMap cmd ≠ none →
        ∃ s2, commandSnake s cmd = some (Except.ok s2)) ∧
    (∀ (s : SnakeSt) (cmd : String), snakeCommandsMap cmd = none →
      commandSnake s cmd = some (Except.error "cannot execute command")) ∧
    commandSnake snakeNorthward "s" = some (Except.ok snakeNorthward) := by
  refine ⟨?_, ?_, rfl⟩
  · intro s cmd h hr
    cases hm : snakeCommandsMap cmd with
    | none => exact absurd hm hr
    | some dir =>
      have hs := setMovementDirection_isSome s dir h
      cases hd : setMovementDirection s dir with
      | none => rw [hd] at hs; simp at hs
      | some r =>
        cases r with
        | ok s2 => exact ⟨s2, by simp [commandSnake, hm, hd]⟩
        | error msg => exact ⟨s, by simp [commandSnake, hm, hd]⟩
  · intro s cmd h
    simp [commandSnake, h]

/-- C9 witness: a recognized command on a two-cell snake returns nil. -/
theorem commandDiscardsDirectionRejection_witness :
    ∃ s2, commandSnake snakeEastward "n" = some (Except.ok s2) :=
  commandDiscardsDirectionRejection.1 snakeEastward "n" (by decide) (by decide)

/-- C10: `setMovementDirection` reads `cells[1]` and `cells[0]` with no
bounds check: with at least two cells no valid-direction command faults,
and with fewer than two cells a valid-direction command hits the
out-of-range access to `cells[1]` (modelled as the `none` outcome). -/
theorem setMovementDirectionIndexBounds :
    (∀ (s : SnakeSt) (dir : Nat), 2 ≤ s.dots.length →
      (setMovementDirection s dir).isSome = true) ∧
    (∀ (s : SnakeSt) (dir : Nat), ValidDirection dir = true →
      s.dots.length < 2 → setMovementDirection s dir = none) := by
  constructor
  · exact setMovementDirection_isSome
  · intro s dir hv h
    obtain ⟨id, dots, len, sdir⟩ := s
    match dots, h with
    | [], _ => simp [setMovementDirection, hv]
    | [d], _ => simp [setMovementDirection, hv]

/-- C10 witness: the two-cell snake does not fault; the one-cell snake
faults on a valid direction. -/
theorem setMovementDirectionIndexBounds_witness :
    (setMovementDirection snakeNorthward DirectionEast).isSome = true ∧
    setMovementDirection snakeOneDot DirectionEast = none :=
  ⟨setMovementDirectionIndexBounds.1 snakeNorthward DirectionEast (by decide),
   setMovementDirectionIndexBounds.2 snakeOneDot DirectionEast (by decide) (by decide)⟩

end SnakeServer
